import Mathlib

/-!
Verification of the Falcon 1 ascent notebook (`scripts/falcon-1/falcon-1.ipynb`).

Numbers are modelled as exact rationals (`ℚ`); Python decimal literals such as
`0.0041` denote the corresponding exact rationals.  Vessel telemetry read over
the RPC connection is modelled as explicit data (a `Vessel` record for the
scalar reads, and lists of `Telemetry` samples for the values successive
polling iterations observe).
-/

namespace Falcon1

/-- A vessel part as exposed by the RPC API: its tag string, its mass in
kilograms, and the list of its child parts. -/
inductive Part : Type where
  | mk : String → ℚ → List Part → Part

def Part.tag : Part → String
  | .mk t _ _ => t

def Part.mass : Part → ℚ
  | .mk _ m _ => m

def Part.children : Part → List Part
  | .mk _ _ c => c

/-- The scalar vessel attributes the script reads: the part list, the total
mass (kg) and the currently available thrust (N). -/
structure Vessel where
  parts : List Part
  mass : ℚ
  available_thrust : ℚ

/-- `vessel.parts.with_tag(t)`: the parts of the vessel carrying tag `t`,
in part-list order. -/
def with_tag (v : Vessel) (t : String) : List Part :=
  v.parts.filter (fun p => p.tag == t)

/-- `find_payload_mass(vessel)` from cell 6.  The source indexes
`vessel.parts.with_tag('payload_decoupler')[0]` without a guard, so the
embedding returns `none` exactly when that index raises `IndexError`;
otherwise it sums the masses of the children of the first tagged part and
divides by 1000.0. -/
def find_payload_mass (v : Vessel) : Option ℚ :=
  match with_tag v "payload_decoupler" with
  | [] => none
  | payload_decoupler :: _ =>
      some ((payload_decoupler.children.map Part.mass).sum / 1000.0)

/-- `calc_throttle_for_twr(target_twr, vessel)` from cell 6.  `g` is the
surface gravity read in cell 4. -/
def calc_throttle_for_twr (g : ℚ) (target_twr : ℚ) (v : Vessel) : ℚ :=
  let mass := v.mass
  let weight := mass * g
  if v.available_thrust = 0.0 then
    0.0
  else
    min 1.0 (target_twr * weight / v.available_thrust)

/-- `calc_pitch_rate = lambda m: 0.0041*m**2 + 0.0259*m + 0.5801` from
cell 8 (`m` is the payload mass in tonnes). -/
def calc_pitch_rate (m : ℚ) : ℚ :=
  0.0041 * m ^ 2 + 0.0259 * m + 0.5801

/-- The control outputs one iteration of a pitch-over loop body writes:
the throttle and the autopilot pitch/heading command. -/
structure Commands where
  throttle : ℚ
  target_pitch : ℚ
  target_heading : ℚ

/-- One iteration of the cell-8 pitch-over loop body, at wall-clock time
`now`, given the `pitch_start` timestamp taken before the loop and the
computed `pitch_rate` (target_twr is 1.5 there). -/
def pitchOverBodyCell8 (g : ℚ) (v : Vessel) (now pitch_start pitch_rate : ℚ) :
    Commands :=
  { throttle := calc_throttle_for_twr g 1.5 v
    target_pitch := 90.0 - (now - pitch_start) * pitch_rate
    target_heading := 90.0 }

/-- One iteration of the cell-10 pitch-over loop body, at wall-clock time
`now` (target_twr is set to 1.75 inside the body). -/
def pitchOverBodyCell10 (g : ℚ) (v : Vessel) (now pitch_start pitch_rate : ℚ) :
    Commands :=
  { throttle := calc_throttle_for_twr g 1.75 v
    target_pitch := 45.0 - (now - pitch_start) * pitch_rate
    target_heading := 90.0 }

/-- The Python literal `0.0` denotes the rational zero. -/
theorem zeroLit : (0.0 : ℚ) = 0 := by norm_num

/-- Claim C1: when `available_thrust > 0`, `calc_throttle_for_twr` returns
`min(1.0, target_twr * mass * g / available_thrust)`. -/
theorem C1_throttle_formula (g target_twr : ℚ) (v : Vessel)
    (h : 0 < v.available_thrust) :
    calc_throttle_for_twr g target_twr v =
      min 1.0 (target_twr * v.mass * g / v.available_thrust) := by
  unfold calc_throttle_for_twr
  rw [if_neg (by rw [zeroLit]; exact ne_of_gt h), mul_assoc]

/-- Witness for C1 at `g = 1`, `target_twr = 2`, `mass = 1`,
`available_thrust = 1`. -/
theorem C1_throttle_formula_witness :
    calc_throttle_for_twr 1 2
      { parts := [], mass := 1, available_thrust := 1 } = 1 := by
  rw [C1_throttle_formula 1 2
    { parts := [], mass := 1, available_thrust := 1 } (by norm_num)]
  norm_num

/-- Counterexample to C2: with `available_thrust = -1`, `mass = 1`, `g = 1`,
`target_twr = 1`, the function returns `min(1.0, -1) = -1`, not `0.0`: the
source only guards against `available_thrust == 0.0`, so a negative value
reaches the division branch. -/
theorem C2_counterexample :
    calc_throttle_for_twr 1 1
        { parts := [], mass := 1, available_thrust := -1 } = -1 ∧
      (-1 : ℚ) ≠ 0 := by
  constructor
  · unfold calc_throttle_for_twr
    norm_num
  · norm_num

/-- Claim C2 as amended: `calc_throttle_for_twr` returns `0.0` exactly when
`available_thrust == 0.0`; for negative `available_thrust` the division is
performed and the result is `min(1.0, target_twr * mass * g /
available_thrust)` (which is negative for positive numerator). -/
theorem C2_amended_zero_guard (g target_twr : ℚ) (v : Vessel) :
    (v.available_thrust = 0 → calc_throttle_for_twr g target_twr v = 0) ∧
    (v.available_thrust < 0 →
      calc_throttle_for_twr g target_twr v =
        min 1.0 (target_twr * (v.mass * g) / v.available_thrust)) := by
  constructor
  · intro h
    unfold calc_throttle_for_twr
    rw [if_pos (by rw [zeroLit]; exact h)]
    norm_num
  · intro h
    unfold calc_throttle_for_twr
    rw [if_neg (by rw [zeroLit]; exact ne_of_lt h)]

/-- Witness for the amended C2 at `available_thrust = 0` and at
`available_thrust = -2`. -/
theorem C2_amended_zero_guard_witness :
    calc_throttle_for_twr 1 1
        { parts := [], mass := 1, available_thrust := 0 } = 0 ∧
      calc_throttle_for_twr 1 1
        { parts := [], mass := 1, available_thrust := -2 } =
        min 1.0 ((1 : ℚ) * (1 * 1) / (-2)) :=
  ⟨(C2_amended_zero_guard 1 1
      { parts := [], mass := 1, available_thrust := 0 }).1 rfl,
   (C2_amended_zero_guard 1 1
      { parts := [], mass := 1, available_thrust := -2 }).2 (by norm_num)⟩

/-- Claim C3: the pitch rate for payload mass `m` (tonnes) is exactly
`0.0041*m^2 + 0.0259*m + 0.5801` degrees per second, i.e. the exact
rational polynomial with coefficients 41/10000, 259/10000 and 5801/10000. -/
theorem C3_pitch_rate_formula (m : ℚ) :
    calc_pitch_rate m =
      (41 / 10000) * m ^ 2 + (259 / 10000) * m + 5801 / 10000 := by
  unfold calc_pitch_rate
  norm_num

/-- Claim C4: during each pitch-over phase, at elapsed time `t ≥ 0` since
`pitch_start`, the commanded target pitch is `start_pitch - t * pitch_rate`:
`90.0 - t*rate` in the cell-8 pitch-over and `45.0 - t*rate` in the cell-10
pitch-over. -/
theorem C4_pitch_linear (g t pitch_rate pitch_start : ℚ) (v : Vessel)
    (_h : 0 ≤ t) :
    (pitchOverBodyCell8 g v (pitch_start + t) pitch_start
        pitch_rate).target_pitch = 90.0 - t * pitch_rate ∧
      (pitchOverBodyCell10 g v (pitch_start + t) pitch_start
        pitch_rate).target_pitch = 45.0 - t * pitch_rate := by
  constructor <;> simp [pitchOverBodyCell8, pitchOverBodyCell10]

/-- Witness for C4 at `t = 2`, `pitch_rate = 1`, `pitch_start = 5`. -/
theorem C4_pitch_linear_witness :
    (pitchOverBodyCell8 1 { parts := [], mass := 1, available_thrust := 1 }
        (5 + 2) 5 1).target_pitch = 90.0 - 2 * 1 ∧
      (pitchOverBodyCell10 1 { parts := [], mass := 1, available_thrust := 1 }
        (5 + 2) 5 1).target_pitch = 45.0 - 2 * 1 :=
  C4_pitch_linear 1 2 1 5 { parts := [], mass := 1, available_thrust := 1 }
    (by norm_num)

/-- One telemetry sample as read by a polling iteration of
`find_ascent_altitude` (cell 12): the vertical speed, the flight pitch, the
mean altitude and the orbit apoapsis altitude at that instant. -/
structure Telemetry where
  vertical_speed : ℚ
  pitch : ℚ
  mean_altitude : ℚ
  apoapsis_altitude : ℚ
  deriving DecidableEq

/-- `find_ascent_altitude(pitch_rate)` from cell 12, modelled over the list
of telemetry samples its polling iterations observe.  The first `while`
loop polls until `vertical_speed < 100.0` fails, the second until
`pitch > 45.0` fails, and the function returns
`vessel.flight().mean_altitude` at that point.  The throttle and autopilot
writes in the loop bodies are outputs to the simulation and do not affect
the returned value; `none` models a run whose loops never exit. -/
def find_ascent_altitude (trace : List Telemetry) : Option ℚ :=
  let after_ascent := trace.dropWhile (fun s => decide (s.vertical_speed < 100.0))
  let after_pitch_over := after_ascent.dropWhile (fun s => decide (s.pitch > 45.0))
  match after_pitch_over with
  | [] => none
  | s :: _ => some s.mean_altitude

/-- The sample at which the second polling loop of `find_ascent_altitude`
exits: the first sample not dropped by the two `while` conditions. -/
def pitchOverExitSample (trace : List Telemetry) : Option Telemetry :=
  ((trace.dropWhile (fun s => decide (s.vertical_speed < 100.0))).dropWhile
    (fun s => decide (s.pitch > 45.0))).head?

/-- Cell 12's sweep loop body: for each pitch rate, the value appended to
`ascent_altitudes` and then written to the output file is
`find_ascent_altitude(pitch_rate)` on the telemetry that run observes. -/
def sweepLoggedValues (traceFor : ℚ → List Telemetry) (pitch_rates : List ℚ) :
    List (Option ℚ) :=
  pitch_rates.map (fun r => find_ascent_altitude (traceFor r))

/-- Counterexample to C5: `find_ascent_altitude` returns
`vessel.flight().mean_altitude`, not the apoapsis altitude.  On a run whose
single sample has mean altitude 10 and apoapsis altitude 20, the returned
(and logged) value is 10, not 20. -/
theorem C5_counterexample :
    find_ascent_altitude
        [{ vertical_speed := 100, pitch := 40, mean_altitude := 10,
           apoapsis_altitude := 20 }] = some 10 ∧
      ({ vertical_speed := 100, pitch := 40, mean_altitude := 10,
         apoapsis_altitude := 20 } : Telemetry).apoapsis_altitude = 20 ∧
      some (10 : ℚ) ≠ some (20 : ℚ) := by
  refine ⟨by norm_num [find_ascent_altitude, List.dropWhile], rfl, by norm_num⟩

/-- Claim C5 as amended: the value logged for each pitch rate of the sweep
is `find_ascent_altitude` of that run, which is the vessel's *mean
altitude* (`flight().mean_altitude`) at the sample where the pitch-over
loop exits — not the apoapsis altitude. -/
theorem C5_amended_logs_mean_altitude (traceFor : ℚ → List Telemetry)
    (pitch_rates : List ℚ) :
    sweepLoggedValues traceFor pitch_rates =
      pitch_rates.map
        (fun r => (pitchOverExitSample (traceFor r)).map Telemetry.mean_altitude) := by
  unfold sweepLoggedValues
  refine List.map_congr_left (fun r _ => ?_)
  unfold find_ascent_altitude pitchOverExitSample
  cases h : ((traceFor r).dropWhile (fun s => decide (s.vertical_speed < 100.0))).dropWhile
      (fun s => decide (s.pitch > 45.0)) with
  | nil => simp [h]
  | cons s rest => simp [h]

/-- The contents a file handle starts with, by open mode: Python's
`open(name, 'a')` starts from the existing contents, while `open(name, 'w')`
truncates the file.  `fs` maps a file name to its current lines. -/
def openFileLines (fs : String → List String) (name mode : String) :
    List String :=
  if mode = "a" then fs name else []

/-- Cell 12's file write: the output file is opened with mode `'w'`, then
one `f.write` per collected altitude appends a line holding the formatted
number to the handle. -/
def writeSweepFile (fs : String → List String) (name : String)
    (ascent_altitudes : List ℚ) : List String :=
  ascent_altitudes.foldl (fun content asc => content ++ [toString asc])
    (openFileLines fs name "w")

/-- Counterexample to C6: the sweep opens its output file with mode `'w'`,
which truncates.  With pre-existing contents `["3.14"]`, writing the single
altitude 1 leaves the file holding only `["1"]`: the pre-existing line is
not preserved. -/
theorem C6_counterexample :
    writeSweepFile (fun _ => ["3.14"]) "pad_125_0" [1] = ["1"] ∧
      (fun _ => ["3.14"] : String → List String) "pad_125_0" ≠ [] ∧
      writeSweepFile (fun _ => ["3.14"]) "pad_125_0" [1] ≠
        ["3.14"] ++ ["1"] := by
  refine ⟨rfl, by simp, by simp [writeSweepFile, openFileLines]⟩

theorem writeSweepFile_foldl (ascent_altitudes : List ℚ)
    (init : List String) :
    ascent_altitudes.foldl (fun content asc => content ++ [toString asc])
        init = init ++ ascent_altitudes.map toString := by
  induction ascent_altitudes generalizing init with
  | nil => simp
  | cons a rest ih => simp [ih]

/-- Claim C6 as amended: the sweep's output file is opened with mode `'w'`,
so any pre-existing contents are discarded (the result does not depend on
the prior file system state), and each altitude is written as a formatted
number on its own line: the resulting file is exactly one line per
altitude, in order. -/
theorem C6_amended_truncating_write (fs : String → List String)
    (name : String) (ascent_altitudes : List ℚ) :
    writeSweepFile fs name ascent_altitudes =
      ascent_altitudes.map toString := by
  unfold writeSweepFile openFileLines
  rw [writeSweepFile_foldl]
  simp

/-- A statement of a polling-loop body, as written in the source: a throttle
write, an assignment to a local variable, an autopilot pitch/heading
command, or a `time.sleep` of the given duration in seconds. -/
inductive Stmt : Type where
  | setThrottle : Stmt
  | assign : String → Stmt
  | setAutopilot : Stmt
  | sleep : ℚ → Stmt
  deriving DecidableEq

def Stmt.isSleep : Stmt → Bool
  | .sleep _ => true
  | _ => false

/-- A telemetry-polling `while` loop of the ascent script: a label and the
statements of its body, transcribed in source order. -/
structure PollLoop where
  label : String
  body : List Stmt
  deriving DecidableEq

/-- Cell 8, first loop: `while ... vertical_speed < 100.0:` — its body sets
the throttle and then calls `time.sleep(0.1)`. -/
def verticalSpeedLoop : PollLoop :=
  { label := "cell8-vertical-speed"
    body := [.setThrottle, .sleep 0.1] }

/-- Cell 8, second loop: `while vessel.flight().pitch > 45.0:` — its body
sets the throttle, computes `target_pitch` and commands the autopilot; it
contains no sleep (the `time.sleep(0.1)` follows the loop). -/
def pitchOverLoopCell8 : PollLoop :=
  { label := "cell8-pitch-over"
    body := [.setThrottle, .assign "target_pitch", .setAutopilot] }

/-- Cell 8, third loop: `while vessel.orbit.apoapsis_altitude < 30000:` —
no sleep in the body. -/
def apoapsis30kLoop : PollLoop :=
  { label := "cell8-apoapsis-30km"
    body := [.setThrottle, .setAutopilot] }

/-- Cell 10, first loop: `while vessel.flight().pitch > 0.0:` — no sleep in
the body. -/
def pitchOverLoopCell10 : PollLoop :=
  { label := "cell10-pitch-over"
    body := [.assign "target_twr", .setThrottle, .assign "target_pitch",
             .setAutopilot] }

/-- Cell 10, second loop: `while vessel.orbit.apoapsis_altitude <
100000.0:` — no sleep in the body. -/
def apoapsis100kLoop : PollLoop :=
  { label := "cell10-apoapsis-100km"
    body := [.assign "target_twr", .setThrottle, .setAutopilot] }

/-- The telemetry-polling `while` loops of the ascent script (cells 8 and
10), in program order. -/
def ascentPollLoops : List PollLoop :=
  [verticalSpeedLoop, pitchOverLoopCell8, apoapsis30kLoop,
   pitchOverLoopCell10, apoapsis100kLoop]

/-- Whether a loop's body contains a `time.sleep` call. -/
def bodyHasSleep (l : PollLoop) : Bool :=
  l.body.any Stmt.isSleep

/-- Counterexample to C7: the cell-8 pitch-over loop is a telemetry-polling
loop of the ascent script whose body contains no sleep — the script only
sleeps after that loop exits, so successive iterations busy-wait. -/
theorem C7_counterexample :
    pitchOverLoopCell8 ∈ ascentPollLoops ∧
      bodyHasSleep pitchOverLoopCell8 = false :=
  ⟨List.Mem.tail _ (List.Mem.head _), rfl⟩

/-- Claim C7 as amended: only the first polling loop (cell 8's
vertical-speed loop) sleeps inside its body, for the fixed duration 0.1 s
per iteration; the bodies of the other four polling loops contain no sleep
and busy-wait between telemetry reads. -/
theorem C7_amended_only_first_loop_sleeps :
    ascentPollLoops.filter bodyHasSleep = [verticalSpeedLoop] ∧
      Stmt.sleep 0.1 ∈ verticalSpeedLoop.body :=
  ⟨rfl, List.Mem.tail _ (List.Mem.head _)⟩

/-- Claim C8: for nonnegative `target_twr`, `mass`, `g` and
`available_thrust`, the returned throttle lies in `[0.0, 1.0]`. -/
theorem C8_throttle_in_unit_interval (g target_twr : ℚ) (v : Vessel)
    (htwr : 0 ≤ target_twr) (hm : 0 ≤ v.mass) (hg : 0 ≤ g)
    (ht : 0 ≤ v.available_thrust) :
    0 ≤ calc_throttle_for_twr g target_twr v ∧
      calc_throttle_for_twr g target_twr v ≤ 1 := by
  unfold calc_throttle_for_twr
  by_cases h : v.available_thrust = 0.0
  · rw [if_pos h]
    norm_num
  · rw [if_neg h]
    rw [zeroLit] at h
    have hpos : 0 < v.available_thrust := lt_of_le_of_ne ht (Ne.symm h)
    have hq : 0 ≤ target_twr * (v.mass * g) / v.available_thrust :=
      div_nonneg (mul_nonneg htwr (mul_nonneg hm hg)) (le_of_lt hpos)
    constructor
    · exact le_min (by norm_num) hq
    · calc min 1.0 (target_twr * (v.mass * g) / v.available_thrust) ≤ 1.0 :=
            min_le_left _ _
        _ = 1 := by norm_num

/-- Witness for C8 at `g = 1`, `target_twr = 1`, `mass = 2`,
`available_thrust = 1`. -/
theorem C8_throttle_in_unit_interval_witness :
    0 ≤ calc_throttle_for_twr 1 1
        { parts := [], mass := 2, available_thrust := 1 } ∧
      calc_throttle_for_twr 1 1
        { parts := [], mass := 2, available_thrust := 1 } ≤ 1 :=
  C8_throttle_in_unit_interval 1 1
    { parts := [], mass := 2, available_thrust := 1 }
    (by norm_num) (by norm_num) (by norm_num) (by norm_num)

/-- Claim C9: for fixed positive `mass`, `g` and `available_thrust`, the
returned throttle is monotone non-decreasing in `target_twr`. -/
theorem C9_throttle_monotone (g twr1 twr2 : ℚ) (v : Vessel)
    (hm : 0 < v.mass) (hg : 0 < g) (ht : 0 < v.available_thrust)
    (h12 : twr1 ≤ twr2) :
    calc_throttle_for_twr g twr1 v ≤ calc_throttle_for_twr g twr2 v := by
  unfold calc_throttle_for_twr
  rw [if_neg (by rw [zeroLit]; exact ne_of_gt ht),
    if_neg (by rw [zeroLit]; exact ne_of_gt ht)]
  have hw : (0 : ℚ) ≤ v.mass * g := le_of_lt (mul_pos hm hg)
  gcongr

/-- Witness for C9 at `twr1 = 1 ≤ twr2 = 2`, `mass = 1`, `g = 1`,
`available_thrust = 4`. -/
theorem C9_throttle_monotone_witness :
    calc_throttle_for_twr 1 1
        { parts := [], mass := 1, available_thrust := 4 } ≤
      calc_throttle_for_twr 1 2
        { parts := [], mass := 1, available_thrust := 4 } :=
  C9_throttle_monotone 1 1 2
    { parts := [], mass := 1, available_thrust := 4 }
    (by norm_num) (by norm_num) (by norm_num) (by norm_num)

/-- Claim C10: `find_payload_mass` returns the sum of the masses of the
children of the first part tagged `payload_decoupler`, divided by 1000.0,
whenever such a part exists; with no tagged part the unguarded `[0]` index
raises instead of returning a value. -/
theorem C10_payload_mass (v : Vessel) :
    (∀ pd rest, with_tag v "payload_decoupler" = pd :: rest →
      find_payload_mass v =
        some ((pd.children.map Part.mass).sum / 1000.0)) ∧
    (with_tag v "payload_decoupler" = [] → find_payload_mass v = none) := by
  constructor
  · intro pd rest h
    unfold find_payload_mass
    rw [h]
  · intro h
    unfold find_payload_mass
    rw [h]

/-- The concrete vessel for the C10 witness: one untagged tank part and one
`payload_decoupler` part whose single child has mass 130 kg. -/
def sampleVessel : Vessel :=
  { parts := [.mk "tank" 1000 [], .mk "payload_decoupler" 50 [.mk "sat" 130 []]]
    mass := 1180
    available_thrust := 20000 }

/-- Witness for C10 on `sampleVessel`: the payload mass is `130/1000 = 0.13`
tonnes. -/
theorem C10_payload_mass_witness :
    find_payload_mass sampleVessel =
        some (((Part.mk "payload_decoupler" 50
          [.mk "sat" 130 []]).children.map Part.mass).sum / 1000.0) ∧
      find_payload_mass sampleVessel = some 0.13 :=
  ⟨(C10_payload_mass sampleVessel).1
      (Part.mk "payload_decoupler" 50 [.mk "sat" 130 []]) [] rfl,
   by
    rw [(C10_payload_mass sampleVessel).1
      (Part.mk "payload_decoupler" 50 [.mk "sat" 130 []]) [] rfl]
    norm_num [Part.children, Part.mass]⟩

end Falcon1
